import Mathlib

/-!
Shallow embedding of `src/libavutil/error.c` (FFmpeg error-string facility).

Buffers are modelled as `List Nat` of byte values; a write of a block `w`
starting at offset 0 of a buffer `buf` is `writeBytes buf w`.  The platform
error-string facility (`strerror_r` on POSIX, `FormatMessageA` on Windows) is
external to the repository, so it enters the model as a function parameter
returning the status and the block of bytes it wrote into the buffer.
-/

namespace FFmpegError

/-- Byte values of a Lean string (all source strings are ASCII). -/
def strBytes (s : String) : List Nat := s.data.map Char.toNat

/-- The C string stored in a byte buffer: everything before the first NUL. -/
def cstring (l : List Nat) : List Nat := l.takeWhile (fun b => b != 0)

/-- Overwrite the first `w.length` bytes of `buf` with `w`. -/
def writeBytes (buf w : List Nat) : List Nat := w ++ buf.drop w.length

/-- Modelled from the spec: the file `error.h` of this repository is not under `src/`.
`MKTAG(a,b,c,d)` packs four bytes little-endian, as in the FFmpeg header `macros.h`;
all tags used here stay below `2^31`, so the C `int` cast does not wrap. -/
def MKTAG (a b c d : Nat) : Nat := a + b * 2^8 + c * 2^16 + d * 2^24

/-- Modelled from the spec: `FFERRTAG(a,b,c,d) = -(int)MKTAG(a,b,c,d)`, the
"sentinel base with small distinguishing offsets" scheme of spec section 3. -/
def FFERRTAG (a b c d : Nat) : Int := -(MKTAG a b c d : Int)

/-- Modelled from the spec: `AVERROR_BUG` from the missing `error.h`. -/
def AVERROR_BUG : Int := FFERRTAG 'B'.toNat 'U'.toNat 'G'.toNat '!'.toNat

/-- Modelled from the spec: `AVERROR_BUG2` from the missing `error.h`. -/
def AVERROR_BUG2 : Int := FFERRTAG 'B'.toNat 'U'.toNat 'G'.toNat ' '.toNat

/-- Modelled from the spec: `AVERROR_EOF` from the missing `error.h`. -/
def AVERROR_EOF : Int := FFERRTAG 'E'.toNat 'O'.toNat 'F'.toNat ' '.toNat

/-- Modelled from the spec: `AVERROR_UNKNOWN` from the missing `error.h`:
the failure kind returned on an unresolvable code. -/
def AVERROR_UNKNOWN : Int := FFERRTAG 'U'.toNat 'N'.toNat 'K'.toNat 'N'.toNat

/-- `struct error_entry` of error.c lines 49-53.  `str` is `Option` because a
C aggregate initializer with only two fields leaves `str = NULL`. -/
structure error_entry where
  num : Int
  tag : String
  str : Option String

/-- The registry table `error_entries` of error.c lines 58-95.  The first 29
entries use `ERROR_TAG(t)` = `AVERROR_t, #t` followed by the message, so all
three fields are set.  The last five entries (error.c lines 89-93) give only
two initializers `{ AVERROR(E...), "message" }`: the message lands in the
`tag` field and `str` is left NULL (`none`).  Numeric code values are
modelled from the spec (the file `error.h` of this repository is not under `src/`):
`FFERRTAG` values follow the upstream FFmpeg scheme, `AVERROR(e) = -e` with
the standard Linux errno numbers, `AVERROR_INPUT_CHANGED = -0x636e6701`,
`AVERROR_OUTPUT_CHANGED = -0x636e6702`, `AVERROR_EXPERIMENTAL = -0x2bb2afa8`;
`AVERROR_INPUT_AND_OUTPUT_CHANGED` and `AVERROR_HTTP_TOO_MANY_REQUESTS` do
not exist upstream, so per spec section 4.1 ("no case where two entries share
a code") they are modelled as the distinct values `-0x636e6703` and
`FFERRTAG(0xF8, 52, 50, 57)` (the tag bytes of the digits 4, 2, 9). -/
def error_entries : List error_entry := [
  ⟨FFERRTAG 0xF8 'B'.toNat 'S'.toNat 'F'.toNat, "BSF_NOT_FOUND", some ("Bitstream filter not found")⟩,
  ⟨AVERROR_BUG, "BUG", some ("Internal bug, should not have happened")⟩,
  ⟨AVERROR_BUG2, "BUG2", some ("Internal bug, should not have happened")⟩,
  ⟨FFERRTAG 'B'.toNat 'U'.toNat 'F'.toNat 'S'.toNat, "BUFFER_TOO_SMALL", some ("Buffer too small")⟩,
  ⟨FFERRTAG 0xF8 'D'.toNat 'E'.toNat 'C'.toNat, "DECODER_NOT_FOUND", some ("Decoder not found")⟩,
  ⟨FFERRTAG 0xF8 'D'.toNat 'E'.toNat 'M'.toNat, "DEMUXER_NOT_FOUND", some ("Demuxer not found")⟩,
  ⟨FFERRTAG 0xF8 'E'.toNat 'N'.toNat 'C'.toNat, "ENCODER_NOT_FOUND", some ("Encoder not found")⟩,
  ⟨AVERROR_EOF, "EOF", some ("End of file")⟩,
  ⟨FFERRTAG 'E'.toNat 'X'.toNat 'I'.toNat 'T'.toNat, "EXIT", some ("Immediate exit requested")⟩,
  ⟨FFERRTAG 'E'.toNat 'X'.toNat 'T'.toNat ' '.toNat, "EXTERNAL", some ("Generic error in an external library")⟩,
  ⟨FFERRTAG 0xF8 'F'.toNat 'I'.toNat 'L'.toNat, "FILTER_NOT_FOUND", some ("Filter not found")⟩,
  ⟨-0x636e6701, "INPUT_CHANGED", some ("Input changed")⟩,
  ⟨FFERRTAG 'I'.toNat 'N'.toNat 'D'.toNat 'A'.toNat, "INVALIDDATA", some ("Invalid data found when processing input")⟩,
  ⟨FFERRTAG 0xF8 'M'.toNat 'U'.toNat 'X'.toNat, "MUXER_NOT_FOUND", some ("Muxer not found")⟩,
  ⟨FFERRTAG 0xF8 'O'.toNat 'P'.toNat 'T'.toNat, "OPTION_NOT_FOUND", some ("Option not found")⟩,
  ⟨-0x636e6702, "OUTPUT_CHANGED", some ("Output changed")⟩,
  ⟨FFERRTAG 'P'.toNat 'A'.toNat 'W'.toNat 'E'.toNat, "PATCHWELCOME", some ("Not yet implemented in FFmpeg, patches welcome")⟩,
  ⟨FFERRTAG 0xF8 'P'.toNat 'R'.toNat 'O'.toNat, "PROTOCOL_NOT_FOUND", some ("Protocol not found")⟩,
  ⟨FFERRTAG 0xF8 'S'.toNat 'T'.toNat 'R'.toNat, "STREAM_NOT_FOUND", some ("Stream not found")⟩,
  ⟨AVERROR_UNKNOWN, "UNKNOWN", some ("Unknown error occurred")⟩,
  ⟨-0x2bb2afa8, "EXPERIMENTAL", some ("Experimental feature")⟩,
  ⟨-0x636e6703, "INPUT_AND_OUTPUT_CHANGED", some ("Input and output changed")⟩,
  ⟨FFERRTAG 0xF8 '4'.toNat '0'.toNat '0'.toNat, "HTTP_BAD_REQUEST", some ("Server returned 400 Bad Request")⟩,
  ⟨FFERRTAG 0xF8 '4'.toNat '0'.toNat '1'.toNat, "HTTP_UNAUTHORIZED", some ("Server returned 401 Unauthorized (authorization failed)")⟩,
  ⟨FFERRTAG 0xF8 '4'.toNat '0'.toNat '3'.toNat, "HTTP_FORBIDDEN", some ("Server returned 403 Forbidden (access denied)")⟩,
  ⟨FFERRTAG 0xF8 '4'.toNat '0'.toNat '4'.toNat, "HTTP_NOT_FOUND", some ("Server returned 404 Not Found")⟩,
  ⟨FFERRTAG 0xF8 '4'.toNat '2'.toNat '9'.toNat, "HTTP_TOO_MANY_REQUESTS", some ("Server returned 429 Too Many Requests")⟩,
  ⟨FFERRTAG 0xF8 '4'.toNat 'X'.toNat 'X'.toNat, "HTTP_OTHER_4XX", some ("Server returned 4XX Client Error, but not one of 40\x7b0,1,3,4\x7d")⟩,
  ⟨FFERRTAG 0xF8 '5'.toNat 'X'.toNat 'X'.toNat, "HTTP_SERVER_ERROR", some ("Server returned 5XX Server Error reply")⟩,
  ⟨-22, "Invalid argument", none⟩,
  ⟨-12, "Cannot allocate memory", none⟩,
  ⟨-5, "I/O error", none⟩,
  ⟨-2, "No such file or directory", none⟩,
  ⟨-29, "Illegal seek", none⟩]

/-- `AV_ERROR_MAX_STRING_SIZE` of error.c line 47. -/
def AV_ERROR_MAX_STRING_SIZE : Nat := 64

/-- Modelled from the spec: `av_strlcpy` lives in `avstring.c`, which is not
under `src/`.  Per spec section 4.2 step 2 it is the safe bounded copy:
at most `size - 1` source bytes (stopping at a NUL) followed by a NUL
terminator; nothing at all is written when `size = 0`.  The result is the
block of bytes written at offset 0 of the destination. -/
def av_strlcpy_w (src : List Nat) (size : Nat) : List Nat :=
  if size = 0 then [] else (src.takeWhile (fun b => b != 0)).take (size - 1) ++ [0]

/-- Modelled from the spec: libc `snprintf` (external to the repository)
writes at most `size - 1` bytes of the formatted string plus a NUL
terminator, and nothing when `size = 0`. -/
def snprintf_w (formatted : List Nat) (size : Nat) : List Nat :=
  if size = 0 then [] else formatted.take (size - 1) ++ [0]

/-- Modelled from the spec: the `%d` conversion of libc `snprintf` — decimal
digits of `n`, most significant first, via repeated division by 10. -/
def natToDecimalAux : Nat → Nat → List Nat → List Nat
  | 0, _, acc => acc
  | fuel + 1, n, acc =>
      if n < 10 then (48 + n) :: acc
      else natToDecimalAux fuel (n / 10) ((48 + n % 10) :: acc)

/-- Decimal ASCII digits of a natural number. -/
def natToDecimal (n : Nat) : List Nat := natToDecimalAux (n + 1) n []

/-- Decimal ASCII rendering of an integer, with a leading `-` when negative,
exactly as `%d` renders the values in range. -/
def intToDecimal (i : Int) : List Nat :=
  if i < 0 then '-'.toNat :: natToDecimal i.natAbs else natToDecimal i.toNat

/-- The formatted fallback `"Unknown error code: %d"` of error.c lines
149/156, before truncation by `snprintf`. -/
def fallbackBytes (errnum : Int) : List Nat :=
  strBytes ("Unknown error code: ") ++ intToDecimal errnum

/-- The value the loop of error.c lines 132-137 leaves in `errstr`: the `str`
field of the first entry whose `num` equals `errnum` (possibly NULL), or
NULL when no entry matches. -/
def registry_errstr (errnum : Int) : Option String :=
  match error_entries.find? (fun en => errnum == en.num) with
  | some en => en.str
  | none => none

/-- The defensive clear of error.c lines 127-129: `errbuf[0] = 0` (store a NUL byte) when
`errbuf_size > 0`. -/
def clear0 (errbuf : List Nat) (errbuf_size : Nat) : List Nat :=
  if 0 < errbuf_size then writeBytes errbuf [0] else errbuf

/-- `av_strerror` of error.c lines 122-163, POSIX build (`#else` branch of
the `#ifdef _WIN32`): the platform facility `sr` models `strerror_r`, called
with `-errnum` and the buffer capacity; it returns its status and the block
of bytes it wrote at offset 0.  Returns the return value of the C function and
the final buffer contents. -/
def av_strerror (sr : Int → Nat → Int × List Nat) (errnum : Int)
    (errbuf : List Nat) (errbuf_size : Nat) : Int × List Nat :=
  match registry_errstr errnum with
  | some s =>
      (0, writeBytes (clear0 errbuf errbuf_size) (av_strlcpy_w (strBytes s) errbuf_size))
  | none =>
      if (sr (-errnum) errbuf_size).1 != 0 then
        (AVERROR_UNKNOWN,
          writeBytes (writeBytes (clear0 errbuf errbuf_size) (sr (-errnum) errbuf_size).2)
            (snprintf_w (fallbackBytes errnum) errbuf_size))
      else
        ((sr (-errnum) errbuf_size).1,
          writeBytes (clear0 errbuf errbuf_size) (sr (-errnum) errbuf_size).2)

/-- `av_strerror` of error.c lines 122-163, Windows build (`#ifdef _WIN32`
branch): `fm` models `FormatMessageA`, called with `-errnum` and the buffer
capacity; it returns the count of characters written (0 on failure) and the
block of bytes it wrote at offset 0. -/
def av_strerror_w32 (fm : Int → Nat → Nat × List Nat) (errnum : Int)
    (errbuf : List Nat) (errbuf_size : Nat) : Int × List Nat :=
  match registry_errstr errnum with
  | some s =>
      (0, writeBytes (clear0 errbuf errbuf_size) (av_strlcpy_w (strBytes s) errbuf_size))
  | none =>
      if (fm (-errnum) errbuf_size).1 == 0 then
        (AVERROR_UNKNOWN,
          writeBytes (writeBytes (clear0 errbuf errbuf_size) (fm (-errnum) errbuf_size).2)
            (snprintf_w (fallbackBytes errnum) errbuf_size))
      else
        (0, writeBytes (clear0 errbuf errbuf_size) (fm (-errnum) errbuf_size).2)

/-- `av_err2str` of error.c lines 107-111: runs `av_strerror` over the
thread-local 64-byte buffer `av_error_buf` and hands that buffer back; the
model returns the new contents of the buffer. -/
def av_err2str (sr : Int → Nat → Int × List Nat) (errnum : Int)
    (av_error_buf : List Nat) : List Nat :=
  (av_strerror sr errnum av_error_buf AV_ERROR_MAX_STRING_SIZE).2

/-- A platform oracle on which the error-string lookup always fails with
status `EINVAL`-style 22 and writes nothing (used to instantiate theorems
at concrete inputs). -/
def sr_fail : Int → Nat → Int × List Nat := fun _ _ => (22, [])

/-- Contract of the platform facility, spec section 4.2 step 3: it never
writes more bytes than the supplied capacity. -/
def sr_bounded (sr : Int → Nat → Int × List Nat) : Prop :=
  ∀ e sz, (sr e sz).2.length ≤ sz

/-- Contract of the platform facility, spec section 4.2 step 3: on success
it has written a NUL-terminated string into the buffer. -/
def sr_terminates (sr : Int → Nat → Int × List Nat) : Prop :=
  ∀ e sz, (sr e sz).1 = 0 → 0 < sz → 0 ∈ (sr e sz).2

/-- Contract of the platform facility, spec section 8: a successful platform
description is a non-empty string (its first byte is not NUL). -/
def sr_nonempty (sr : Int → Nat → Int × List Nat) : Prop :=
  ∀ e sz, (sr e sz).1 = 0 → 2 ≤ sz → ∃ c, (sr e sz).2.head? = some c ∧ c ≠ 0

/-! Basic facts about buffer writes. -/

lemma writeBytes_take (buf w : List Nat) : (writeBytes buf w).take w.length = w :=
  List.take_left w (buf.drop w.length)

lemma writeBytes_length (buf w : List Nat) (h : w.length ≤ buf.length) :
    (writeBytes buf w).length = buf.length := by
  simp only [writeBytes, List.length_append, List.length_drop]
  omega

lemma writeBytes_drop (buf w : List Nat) (n : Nat) (h : w.length ≤ n) :
    (writeBytes buf w).drop n = buf.drop n := by
  unfold writeBytes
  rw [List.drop_append_eq_append_drop, List.drop_eq_nil_of_le h, List.nil_append,
    List.drop_drop]
  congr 1
  omega

lemma writeBytes_nil (buf : List Nat) : writeBytes buf [] = buf := by
  simp [writeBytes]

lemma mem_take_within {res w : List Nat} {sz : Nat}
    (hw : res.take w.length = w) (h0 : 0 ∈ w) (hlen : w.length ≤ sz) :
    0 ∈ res.take sz := by
  have h1 : (res.take sz).take w.length = w := by
    rw [List.take_take, inf_of_le_left hlen, hw]
  rw [← h1] at h0
  exact List.take_subset _ _ h0

lemma clear0_length (buf : List Nat) (sz : Nat) (h : sz ≤ buf.length) :
    (clear0 buf sz).length = buf.length := by
  unfold clear0
  split
  · exact writeBytes_length _ _ (by simp only [List.length_cons, List.length_nil]; omega)
  · rfl

lemma clear0_drop (buf : List Nat) (sz n : Nat) (h : 1 ≤ n) :
    (clear0 buf sz).drop n = buf.drop n := by
  unfold clear0
  split
  · exact writeBytes_drop _ _ _ (by simp only [List.length_cons, List.length_nil]; omega)
  · rfl

/-! Facts about the C-string reading of a buffer. -/

lemma cstring_append_nul (xs rest : List Nat) (h : ∀ b ∈ xs, b ≠ 0) :
    cstring (xs ++ 0 :: rest) = xs := by
  induction xs with
  | nil => simp [cstring]
  | cons a t ih =>
      have ha : (a != 0) = true := by
        simpa [bne_iff_ne] using h a (List.mem_cons_self a t)
      simp only [cstring, List.cons_append, List.takeWhile_cons, ha, if_true]
      exact congrArg (List.cons a) (ih (fun b hb => h b (List.mem_cons_of_mem a hb)))

lemma cstring_append_of_mem (w rest : List Nat) (h : 0 ∈ w) :
    cstring (w ++ rest) = cstring w := by
  induction w with
  | nil => cases h
  | cons a t ih =>
      by_cases ha : a = 0
      · subst ha
        simp [cstring, List.takeWhile_cons]
      · have hne : (a != 0) = true := by simpa [bne_iff_ne] using ha
        have h0 : 0 ∈ t := by
          rcases List.mem_cons.mp h with h' | h'
          · exact absurd h'.symm ha
          · exact h'
        simp only [cstring, List.cons_append, List.takeWhile_cons, hne, if_true]
        exact congrArg (List.cons a) (ih h0)

lemma cstring_ne_nil_of_head {l : List Nat} {c : Nat}
    (h : l.head? = some c) (hc : c ≠ 0) : cstring l ≠ [] := by
  cases l with
  | nil => simp at h
  | cons a t =>
      have hac : a = c := by simpa using h
      have hne : (a != 0) = true := by simpa [bne_iff_ne, hac] using hc
      simp [cstring, List.takeWhile_cons, hne]

/-! The decimal formatter never emits a NUL byte. -/

lemma natToDecimalAux_ne_zero : ∀ (fuel n : Nat) (acc : List Nat),
    (∀ b ∈ acc, b ≠ 0) → ∀ b ∈ natToDecimalAux fuel n acc, b ≠ 0 := by
  intro fuel
  induction fuel with
  | zero =>
      intro n acc hacc b hb
      exact hacc b (by simpa [natToDecimalAux] using hb)
  | succ fuel ih =>
      intro n acc hacc b hb
      unfold natToDecimalAux at hb
      by_cases hn : n < 10
      · rw [if_pos hn] at hb
        rcases List.mem_cons.mp hb with h | h
        · omega
        · exact hacc b h
      · rw [if_neg hn] at hb
        refine ih (n / 10) _ ?_ b hb
        intro c hc
        rcases List.mem_cons.mp hc with h | h
        · omega
        · exact hacc c h

lemma intToDecimal_ne_zero (i : Int) : ∀ b ∈ intToDecimal i, b ≠ 0 := by
  intro b hb
  unfold intToDecimal at hb
  split at hb
  · rcases List.mem_cons.mp hb with h | h
    · subst h; decide
    · exact natToDecimalAux_ne_zero _ _ _ (by simp) b h
  · exact natToDecimalAux_ne_zero _ _ _ (by simp) b hb

lemma unknown_prefix_ne_zero : ∀ b ∈ strBytes ("Unknown error code: "), b ≠ 0 := by
  decide

lemma fallbackBytes_ne_zero (i : Int) : ∀ b ∈ fallbackBytes i, b ≠ 0 := by
  intro b hb
  unfold fallbackBytes at hb
  rcases List.mem_append.mp hb with h | h
  · exact unknown_prefix_ne_zero b h
  · exact intToDecimal_ne_zero i b h

/-! Shape of the bounded-copy blocks. -/

lemma av_strlcpy_w_eq (src : List Nat) (sz : Nat) (hsz : 1 ≤ sz) :
    av_strlcpy_w src sz = (src.takeWhile (fun b => b != 0)).take (sz - 1) ++ [0] := by
  unfold av_strlcpy_w
  rw [if_neg (by omega)]

lemma av_strlcpy_w_length (src : List Nat) (sz : Nat) (hsz : 1 ≤ sz) :
    (av_strlcpy_w src sz).length ≤ sz := by
  rw [av_strlcpy_w_eq src sz hsz]
  have := List.length_take_le (sz - 1) (src.takeWhile (fun b => b != 0))
  simp only [List.length_append, List.length_cons, List.length_nil]
  omega

lemma av_strlcpy_w_mem (src : List Nat) (sz : Nat) (hsz : 1 ≤ sz) :
    0 ∈ av_strlcpy_w src sz := by
  rw [av_strlcpy_w_eq src sz hsz]
  simp

lemma snprintf_w_eq (f : List Nat) (sz : Nat) (hsz : 1 ≤ sz) :
    snprintf_w f sz = f.take (sz - 1) ++ [0] := by
  unfold snprintf_w
  rw [if_neg (by omega)]

lemma snprintf_w_length (f : List Nat) (sz : Nat) (hsz : 1 ≤ sz) :
    (snprintf_w f sz).length ≤ sz := by
  rw [snprintf_w_eq f sz hsz]
  have := List.length_take_le (sz - 1) f
  simp only [List.length_append, List.length_cons, List.length_nil]
  omega

lemma snprintf_w_mem (f : List Nat) (sz : Nat) (hsz : 1 ≤ sz) :
    0 ∈ snprintf_w f sz := by
  rw [snprintf_w_eq f sz hsz]
  simp

/-! Path characterizations of `av_strerror`. -/

lemma av_strerror_eq_hit (sr : Int → Nat → Int × List Nat) (errnum : Int)
    (buf : List Nat) (sz : Nat) (s : String)
    (hreg : registry_errstr errnum = some s) :
    av_strerror sr errnum buf sz =
      (0, writeBytes (clear0 buf sz) (av_strlcpy_w (strBytes s) sz)) := by
  unfold av_strerror
  rw [hreg]

lemma av_strerror_eq_fail (sr : Int → Nat → Int × List Nat) (errnum : Int)
    (buf : List Nat) (sz : Nat)
    (hreg : registry_errstr errnum = none) (hf : (sr (-errnum) sz).1 ≠ 0) :
    av_strerror sr errnum buf sz =
      (AVERROR_UNKNOWN,
        writeBytes (writeBytes (clear0 buf sz) (sr (-errnum) sz).2)
          (snprintf_w (fallbackBytes errnum) sz)) := by
  unfold av_strerror
  rw [hreg]
  rw [if_pos (bne_iff_ne.mpr hf)]

lemma av_strerror_eq_ok (sr : Int → Nat → Int × List Nat) (errnum : Int)
    (buf : List Nat) (sz : Nat)
    (hreg : registry_errstr errnum = none) (hf : (sr (-errnum) sz).1 = 0) :
    av_strerror sr errnum buf sz =
      (0, writeBytes (clear0 buf sz) (sr (-errnum) sz).2) := by
  unfold av_strerror
  rw [hreg, if_neg (by simp [hf]), hf]

/-- The C string `av_strerror` leaves in the buffer, as a function of the
code, the capacity and the platform oracle alone (the initial buffer
contents never influence it). -/
def cstringSpec (sr : Int → Nat → Int × List Nat) (errnum : Int) (sz : Nat) :
    List Nat :=
  match registry_errstr errnum with
  | some s => ((strBytes s).takeWhile (fun b => b != 0)).take (sz - 1)
  | none =>
      if (sr (-errnum) sz).1 != 0 then (fallbackBytes errnum).take (sz - 1)
      else cstring (sr (-errnum) sz).2

lemma take_nul_free {l : List Nat} {n : Nat} (h : ∀ b ∈ l, b ≠ 0) :
    ∀ b ∈ l.take n, b ≠ 0 :=
  fun b hb => h b (List.take_subset _ _ hb)

lemma takeWhile_nul_free (l : List Nat) :
    ∀ b ∈ l.takeWhile (fun b => b != 0), b ≠ 0 := by
  intro b hb
  have h1 := @List.mem_takeWhile_imp Nat (fun b => b != 0) l b hb
  exact bne_iff_ne.mp h1

lemma cstring_av_strerror (sr : Int → Nat → Int × List Nat)
    (ht : sr_terminates sr) (errnum : Int) (buf : List Nat) (sz : Nat)
    (hsz : 1 ≤ sz) :
    cstring (av_strerror sr errnum buf sz).2 = cstringSpec sr errnum sz := by
  cases hreg : registry_errstr errnum with
  | some s =>
      rw [av_strerror_eq_hit sr errnum buf sz s hreg]
      unfold cstringSpec
      rw [hreg]
      simp only [writeBytes, av_strlcpy_w_eq _ _ hsz, List.append_assoc,
        List.singleton_append]
      exact cstring_append_nul _ _ (take_nul_free (takeWhile_nul_free _))
  | none =>
      unfold cstringSpec
      rw [hreg]
      by_cases hf : (sr (-errnum) sz).1 = 0
      · rw [av_strerror_eq_ok sr errnum buf sz hreg hf, if_neg (by simp [hf])]
        exact cstring_append_of_mem _ _ (ht _ _ hf (by omega))
      · rw [av_strerror_eq_fail sr errnum buf sz hreg hf,
          if_pos (bne_iff_ne.mpr hf)]
        simp only [writeBytes, snprintf_w_eq _ _ hsz, List.append_assoc,
          List.singleton_append]
        exact cstring_append_nul _ _ (take_nul_free (fallbackBytes_ne_zero errnum))

lemma registry_errstr_eq_none_of_absent (errnum : Int)
    (h : ∀ en ∈ error_entries, en.num ≠ errnum) :
    registry_errstr errnum = none := by
  unfold registry_errstr
  have hf : error_entries.find? (fun en => errnum == en.num) = none := by
    refine List.find?_eq_none.mpr ?_
    intro en hen
    simp only [beq_iff_eq]
    exact fun he => (h en hen) he.symm
  rw [hf]

/-- Every non-NULL message of the registry table is a non-empty NUL-free
byte string. -/
def entry_msg_ok (en : error_entry) : Bool :=
  match en.str with
  | none => true
  | some s => !(strBytes s).isEmpty && (strBytes s).all (fun b => b != 0)

lemma entries_msg_ok : error_entries.all entry_msg_ok = true := by decide

lemma registry_msg_ok {errnum : Int} {s : String}
    (h : registry_errstr errnum = some s) :
    strBytes s ≠ [] ∧ ∀ b ∈ strBytes s, b ≠ 0 := by
  unfold registry_errstr at h
  cases hf : error_entries.find? (fun en => errnum == en.num) with
  | none =>
      rw [hf] at h
      exact Option.noConfusion h
  | some en =>
      rw [hf] at h
      have hstr : en.str = some s := h
      have hmem := List.mem_of_find?_eq_some hf
      have hok := (List.all_eq_true.mp entries_msg_ok) en hmem
      unfold entry_msg_ok at hok
      rw [hstr] at hok
      simp only [Bool.and_eq_true, Bool.not_eq_true', List.all_eq_true] at hok
      refine ⟨?_, fun b hb => bne_iff_ne.mp (hok.2 b hb)⟩
      intro hnil
      rw [hnil] at hok
      simp at hok

lemma head_writeBytes {base w : List Nat} (h : w ≠ []) :
    (writeBytes base w).head? = w.head? := by
  cases w with
  | nil => exact absurd rfl h
  | cons a t => rfl

lemma head_av_strlcpy {src : List Nat} {sz : Nat} (hsz : 2 ≤ sz)
    (hsrc : src ≠ []) (hne : ∀ b ∈ src, b ≠ 0) :
    ∃ c, (av_strlcpy_w src sz).head? = some c ∧ c ≠ 0 := by
  cases src with
  | nil => exact absurd rfl hsrc
  | cons a t =>
      have ha : a ≠ 0 := hne a (List.mem_cons_self a t)
      have hab : (a != 0) = true := bne_iff_ne.mpr ha
      refine ⟨a, ?_, ha⟩
      rw [av_strlcpy_w_eq _ _ (by omega)]
      obtain ⟨k, hk⟩ : ∃ k, sz - 1 = k + 1 := ⟨sz - 2, by omega⟩
      rw [hk]
      simp [List.takeWhile_cons, hab]

lemma head_snprintf_fallback (errnum : Int) (sz : Nat) (hsz : 2 ≤ sz) :
    ∃ c, (snprintf_w (fallbackBytes errnum) sz).head? = some c ∧ c ≠ 0 := by
  refine ⟨85, ?_, by omega⟩
  rw [snprintf_w_eq _ _ (by omega)]
  obtain ⟨k, hk⟩ : ∃ k, sz - 1 = k + 1 := ⟨sz - 2, by omega⟩
  rw [hk]
  have hU : fallbackBytes errnum =
      85 :: (strBytes ("nknown error code: ") ++ intToDecimal errnum) := by
    unfold fallbackBytes
    rw [show strBytes ("Unknown error code: ") =
      85 :: strBytes ("nknown error code: ") from by decide]
    rfl
  rw [hU]
  simp

/-! Projection forms of the path characterizations. -/

lemma av_strerror_fst_hit (sr : Int → Nat → Int × List Nat) (errnum : Int)
    (buf : List Nat) (sz : Nat) (s : String)
    (hreg : registry_errstr errnum = some s) :
    (av_strerror sr errnum buf sz).1 = 0 := by
  rw [av_strerror_eq_hit sr errnum buf sz s hreg]

lemma av_strerror_snd_hit (sr : Int → Nat → Int × List Nat) (errnum : Int)
    (buf : List Nat) (sz : Nat) (s : String)
    (hreg : registry_errstr errnum = some s) :
    (av_strerror sr errnum buf sz).2 =
      writeBytes (clear0 buf sz) (av_strlcpy_w (strBytes s) sz) := by
  rw [av_strerror_eq_hit sr errnum buf sz s hreg]

lemma av_strerror_fst_ok (sr : Int → Nat → Int × List Nat) (errnum : Int)
    (buf : List Nat) (sz : Nat)
    (hreg : registry_errstr errnum = none) (hf : (sr (-errnum) sz).1 = 0) :
    (av_strerror sr errnum buf sz).1 = 0 := by
  rw [av_strerror_eq_ok sr errnum buf sz hreg hf]

lemma av_strerror_snd_ok (sr : Int → Nat → Int × List Nat) (errnum : Int)
    (buf : List Nat) (sz : Nat)
    (hreg : registry_errstr errnum = none) (hf : (sr (-errnum) sz).1 = 0) :
    (av_strerror sr errnum buf sz).2 =
      writeBytes (clear0 buf sz) (sr (-errnum) sz).2 := by
  rw [av_strerror_eq_ok sr errnum buf sz hreg hf]

lemma av_strerror_fst_fail (sr : Int → Nat → Int × List Nat) (errnum : Int)
    (buf : List Nat) (sz : Nat)
    (hreg : registry_errstr errnum = none) (hf : (sr (-errnum) sz).1 ≠ 0) :
    (av_strerror sr errnum buf sz).1 = AVERROR_UNKNOWN := by
  rw [av_strerror_eq_fail sr errnum buf sz hreg hf]

lemma av_strerror_snd_fail (sr : Int → Nat → Int × List Nat) (errnum : Int)
    (buf : List Nat) (sz : Nat)
    (hreg : registry_errstr errnum = none) (hf : (sr (-errnum) sz).1 ≠ 0) :
    (av_strerror sr errnum buf sz).2 =
      writeBytes (writeBytes (clear0 buf sz) (sr (-errnum) sz).2)
        (snprintf_w (fallbackBytes errnum) sz) := by
  rw [av_strerror_eq_fail sr errnum buf sz hreg hf]

lemma av_strerror_w32_eq_hit (fm : Int → Nat → Nat × List Nat) (errnum : Int)
    (buf : List Nat) (sz : Nat) (s : String)
    (hreg : registry_errstr errnum = some s) :
    av_strerror_w32 fm errnum buf sz =
      (0, writeBytes (clear0 buf sz) (av_strlcpy_w (strBytes s) sz)) := by
  unfold av_strerror_w32
  rw [hreg]

lemma av_strerror_w32_eq_fail (fm : Int → Nat → Nat × List Nat) (errnum : Int)
    (buf : List Nat) (sz : Nat)
    (hreg : registry_errstr errnum = none) (hf : (fm (-errnum) sz).1 = 0) :
    av_strerror_w32 fm errnum buf sz =
      (AVERROR_UNKNOWN,
        writeBytes (writeBytes (clear0 buf sz) (fm (-errnum) sz).2)
          (snprintf_w (fallbackBytes errnum) sz)) := by
  unfold av_strerror_w32
  rw [hreg, if_pos (beq_iff_eq.mpr hf)]

lemma av_strerror_w32_eq_ok (fm : Int → Nat → Nat × List Nat) (errnum : Int)
    (buf : List Nat) (sz : Nat)
    (hreg : registry_errstr errnum = none) (hf : (fm (-errnum) sz).1 ≠ 0) :
    av_strerror_w32 fm errnum buf sz =
      (0, writeBytes (clear0 buf sz) (fm (-errnum) sz).2) := by
  unfold av_strerror_w32
  rw [hreg, if_neg (by simp [hf])]

/-! Contract lemmas for the always-failing concrete platform oracle. -/

lemma sr_fail_bounded : sr_bounded sr_fail := by
  intro e sz
  simp [sr_fail]

lemma sr_fail_terminates : sr_terminates sr_fail := by
  intro e sz h
  simp [sr_fail] at h

lemma sr_fail_nonempty : sr_nonempty sr_fail := by
  intro e sz h
  simp [sr_fail] at h

lemma strerror_write_safe (sr : Int → Nat → Int × List Nat)
    (hb : sr_bounded sr) (ht : sr_terminates sr)
    (errnum : Int) (buf : List Nat) (sz : Nat)
    (hsz : 1 ≤ sz) (hbuf : sz ≤ buf.length) :
    (av_strerror sr errnum buf sz).2.length = buf.length ∧
    0 ∈ (av_strerror sr errnum buf sz).2.take sz ∧
    (av_strerror sr errnum buf sz).2.drop sz = buf.drop sz := by
  have hclen : (clear0 buf sz).length = buf.length := clear0_length buf sz hbuf
  have hcdrop : (clear0 buf sz).drop sz = buf.drop sz := clear0_drop buf sz sz hsz
  cases hreg : registry_errstr errnum with
  | some s =>
      rw [av_strerror_snd_hit sr errnum buf sz s hreg]
      have hw := av_strlcpy_w_length (strBytes s) sz hsz
      have h0 := av_strlcpy_w_mem (strBytes s) sz hsz
      refine ⟨?_, ?_, ?_⟩
      · rw [writeBytes_length _ _ (by omega), hclen]
      · exact mem_take_within (writeBytes_take _ _) h0 hw
      · rw [writeBytes_drop _ _ _ hw, hcdrop]
  | none =>
      by_cases hf : (sr (-errnum) sz).1 = 0
      · rw [av_strerror_snd_ok sr errnum buf sz hreg hf]
        have hw := hb (-errnum) sz
        have h0 := ht (-errnum) sz hf (by omega)
        refine ⟨?_, ?_, ?_⟩
        · rw [writeBytes_length _ _ (by omega), hclen]
        · exact mem_take_within (writeBytes_take _ _) h0 hw
        · rw [writeBytes_drop _ _ _ hw, hcdrop]
      · rw [av_strerror_snd_fail sr errnum buf sz hreg hf]
        have hw1 := hb (-errnum) sz
        have hmidlen :
            (writeBytes (clear0 buf sz) (sr (-errnum) sz).2).length = buf.length := by
          rw [writeBytes_length _ _ (by omega), hclen]
        have hmiddrop :
            (writeBytes (clear0 buf sz) (sr (-errnum) sz).2).drop sz = buf.drop sz := by
          rw [writeBytes_drop _ _ _ hw1, hcdrop]
        have hw2 := snprintf_w_length (fallbackBytes errnum) sz hsz
        have h0 := snprintf_w_mem (fallbackBytes errnum) sz hsz
        refine ⟨?_, ?_, ?_⟩
        · rw [writeBytes_length _ _ (by omega), hmidlen]
        · exact mem_take_within (writeBytes_take _ _) h0 hw2
        · rw [writeBytes_drop _ _ _ hw2, hmiddrop]

/-- Claim C1: for every integer error code and every capacity `sz ≥ 1` that
fits in the buffer of the caller, `av_strerror` keeps the buffer length, leaves a
NUL byte within the first `sz` bytes, and never writes at or beyond offset
`sz`, on all three paths (registry hit, platform success, fallback), given
the contract the spec states for the external platform facility (it writes at most
`sz` bytes and NUL-terminates on success). -/
theorem av_strerror_safe (sr : Int → Nat → Int × List Nat)
    (hb : sr_bounded sr) (ht : sr_terminates sr)
    (errnum : Int) (buf : List Nat) (sz : Nat)
    (hsz : 1 ≤ sz) (hbuf : sz ≤ buf.length) :
    (av_strerror sr errnum buf sz).2.length = buf.length ∧
    0 ∈ (av_strerror sr errnum buf sz).2.take sz ∧
    (av_strerror sr errnum buf sz).2.drop sz = buf.drop sz :=
  strerror_write_safe sr hb ht errnum buf sz hsz hbuf

/-- Claim C1 witness: the safety theorem instantiated at code `-999`,
an 8-byte buffer of sevens and capacity 8. -/
theorem av_strerror_safe_witness :
    sr_bounded sr_fail ∧ sr_terminates sr_fail ∧
    1 ≤ 8 ∧ 8 ≤ (List.replicate 8 7).length ∧
    ((av_strerror sr_fail (-999) (List.replicate 8 7) 8).2.length =
        (List.replicate 8 7).length ∧
      0 ∈ (av_strerror sr_fail (-999) (List.replicate 8 7) 8).2.take 8 ∧
      (av_strerror sr_fail (-999) (List.replicate 8 7) 8).2.drop 8 =
        (List.replicate 8 7).drop 8) :=
  ⟨sr_fail_bounded, sr_fail_terminates, by decide, by decide,
    av_strerror_safe sr_fail sr_fail_bounded sr_fail_terminates (-999)
      (List.replicate 8 7) 8 (by decide) (by decide)⟩

/-- Claim C6: with capacity 0 no byte of the buffer is written — the buffer
comes back unchanged on every path — and the function still reports its
outcome through the return value (0 or `AVERROR_UNKNOWN`). -/
theorem av_strerror_zero_capacity (sr : Int → Nat → Int × List Nat)
    (hb : sr_bounded sr) (errnum : Int) (buf : List Nat) :
    (av_strerror sr errnum buf 0).2 = buf ∧
    ((av_strerror sr errnum buf 0).1 = 0 ∨
      (av_strerror sr errnum buf 0).1 = AVERROR_UNKNOWN) := by
  have hc : clear0 buf 0 = buf := by
    unfold clear0
    rw [if_neg (by omega)]
  have hw : (sr (-errnum) 0).2 = [] :=
    List.length_eq_zero.mp (Nat.le_zero.mp (hb (-errnum) 0))
  cases hreg : registry_errstr errnum with
  | some s =>
      refine ⟨?_, Or.inl (av_strerror_fst_hit sr errnum buf 0 s hreg)⟩
      rw [av_strerror_snd_hit sr errnum buf 0 s hreg, hc]
      show writeBytes buf (av_strlcpy_w (strBytes s) 0) = buf
      unfold av_strlcpy_w
      rw [if_pos rfl]
      exact writeBytes_nil buf
  | none =>
      by_cases hf : (sr (-errnum) 0).1 = 0
      · refine ⟨?_, Or.inl (av_strerror_fst_ok sr errnum buf 0 hreg hf)⟩
        rw [av_strerror_snd_ok sr errnum buf 0 hreg hf, hc, hw]
        exact writeBytes_nil buf
      · refine ⟨?_, Or.inr (av_strerror_fst_fail sr errnum buf 0 hreg hf)⟩
        rw [av_strerror_snd_fail sr errnum buf 0 hreg hf, hc, hw]
        rw [writeBytes_nil buf]
        show writeBytes buf (snprintf_w (fallbackBytes errnum) 0) = buf
        unfold snprintf_w
        rw [if_pos rfl]
        exact writeBytes_nil buf

/-- Claim C6 witness: the zero-capacity theorem instantiated at code `-5`
(a registry `num` whose entry has a NULL message) and a 4-byte buffer. -/
theorem av_strerror_zero_capacity_witness :
    sr_bounded sr_fail ∧
    ((av_strerror sr_fail (-5) [9, 9, 9, 9] 0).2 = [9, 9, 9, 9] ∧
      ((av_strerror sr_fail (-5) [9, 9, 9, 9] 0).1 = 0 ∨
        (av_strerror sr_fail (-5) [9, 9, 9, 9] 0).1 = AVERROR_UNKNOWN)) :=
  ⟨sr_fail_bounded, av_strerror_zero_capacity sr_fail sr_fail_bounded (-5) [9, 9, 9, 9]⟩

/-- Claim C9: on both platform builds the return value of `av_strerror` is
always either 0 or exactly `AVERROR_UNKNOWN`; a nonzero platform status is
never propagated as-is. -/
theorem av_strerror_result_kinds (sr : Int → Nat → Int × List Nat)
    (fm : Int → Nat → Nat × List Nat) (errnum : Int) (buf : List Nat) (sz : Nat) :
    ((av_strerror sr errnum buf sz).1 = 0 ∨
      (av_strerror sr errnum buf sz).1 = AVERROR_UNKNOWN) ∧
    ((av_strerror_w32 fm errnum buf sz).1 = 0 ∨
      (av_strerror_w32 fm errnum buf sz).1 = AVERROR_UNKNOWN) := by
  constructor
  · cases hreg : registry_errstr errnum with
    | some s => exact Or.inl (av_strerror_fst_hit sr errnum buf sz s hreg)
    | none =>
        by_cases hf : (sr (-errnum) sz).1 = 0
        · exact Or.inl (av_strerror_fst_ok sr errnum buf sz hreg hf)
        · exact Or.inr (av_strerror_fst_fail sr errnum buf sz hreg hf)
  · cases hreg : registry_errstr errnum with
    | some s =>
        left
        rw [av_strerror_w32_eq_hit fm errnum buf sz s hreg]
    | none =>
        by_cases hf : (fm (-errnum) sz).1 = 0
        · right
          rw [av_strerror_w32_eq_fail fm errnum buf sz hreg hf]
        · left
          rw [av_strerror_w32_eq_ok fm errnum buf sz hreg hf]

/-- Claim C4: on registry miss, `av_strerror` consults the platform facility
exactly at the arithmetic negation of the code the caller passed — its whole result
depends on the facility only through its value at `(-errnum, capacity)`, on
both the POSIX (`strerror_r`) and Windows (`FormatMessageA`) builds — and on
platform success the description block of the platform is what sits at the start
of the buffer of the caller. -/
theorem av_strerror_negated_platform_query (sr sr2 : Int → Nat → Int × List Nat)
    (errnum : Int) (buf : List Nat) (sz : Nat)
    (hmiss : ∀ en ∈ error_entries, en.num ≠ errnum)
    (hagree : sr (-errnum) sz = sr2 (-errnum) sz) :
    av_strerror sr errnum buf sz = av_strerror sr2 errnum buf sz ∧
    ((sr (-errnum) sz).1 = 0 →
      (av_strerror sr errnum buf sz).2.take (sr (-errnum) sz).2.length =
        (sr (-errnum) sz).2) ∧
    (∀ fm fm2 : Int → Nat → Nat × List Nat, fm (-errnum) sz = fm2 (-errnum) sz →
      av_strerror_w32 fm errnum buf sz = av_strerror_w32 fm2 errnum buf sz) ∧
    (∀ fm : Int → Nat → Nat × List Nat, (fm (-errnum) sz).1 ≠ 0 →
      (av_strerror_w32 fm errnum buf sz).2.take (fm (-errnum) sz).2.length =
        (fm (-errnum) sz).2) := by
  have hreg := registry_errstr_eq_none_of_absent errnum hmiss
  refine ⟨?_, ?_, ?_, ?_⟩
  · unfold av_strerror
    rw [hreg, hagree]
  · intro h0
    rw [av_strerror_snd_ok sr errnum buf sz hreg h0]
    exact writeBytes_take _ _
  · intro fm fm2 hagw
    unfold av_strerror_w32
    rw [hreg, hagw]
  · intro fm hok
    rw [av_strerror_w32_eq_ok fm errnum buf sz hreg hok]
    exact writeBytes_take _ _

/-- Claim C4 witness: the negated-query theorem instantiated at the absent
code `-999999`, capacity 4 and the concrete failing oracle. -/
theorem av_strerror_negated_platform_query_witness :
    (∀ en ∈ error_entries, en.num ≠ (-999999 : Int)) ∧
    (av_strerror sr_fail (-999999) [1, 2, 3, 4] 4 =
        av_strerror sr_fail (-999999) [1, 2, 3, 4] 4 ∧
      ((sr_fail (-(-999999 : Int)) 4).1 = 0 →
        (av_strerror sr_fail (-999999) [1, 2, 3, 4] 4).2.take
            (sr_fail (-(-999999 : Int)) 4).2.length =
          (sr_fail (-(-999999 : Int)) 4).2) ∧
      (∀ fm fm2 : Int → Nat → Nat × List Nat,
          fm (-(-999999 : Int)) 4 = fm2 (-(-999999 : Int)) 4 →
          av_strerror_w32 fm (-999999) [1, 2, 3, 4] 4 =
            av_strerror_w32 fm2 (-999999) [1, 2, 3, 4] 4) ∧
      (∀ fm : Int → Nat → Nat × List Nat, (fm (-(-999999 : Int)) 4).1 ≠ 0 →
        (av_strerror_w32 fm (-999999) [1, 2, 3, 4] 4).2.take
            (fm (-(-999999 : Int)) 4).2.length =
          (fm (-(-999999 : Int)) 4).2)) :=
  ⟨by decide,
    av_strerror_negated_platform_query sr_fail sr_fail (-999999) [1, 2, 3, 4] 4
      (by decide) rfl⟩

/-- Claim C8: with code `-999999`, capacity 16 and a platform facility that
cannot describe `999999`, `av_strerror` returns `AVERROR_UNKNOWN` and the
buffer holds exactly the fallback truncated to `"Unknown error c"` — 15
characters plus the NUL terminator. -/
theorem av_strerror_truncated_fallback_example (sr : Int → Nat → Int × List Nat)
    (buf : List Nat) (hfail : (sr 999999 16).1 ≠ 0) :
    (av_strerror sr (-999999) buf 16).1 = AVERROR_UNKNOWN ∧
    cstring (av_strerror sr (-999999) buf 16).2 = strBytes ("Unknown error c") ∧
    (av_strerror sr (-999999) buf 16).2.take 16 =
      strBytes ("Unknown error c") ++ [0] := by
  have hreg : registry_errstr (-999999) = none := by decide
  have he : -(-999999 : Int) = 999999 := by decide
  have hfail2 : (sr (-(-999999 : Int)) 16).1 ≠ 0 := by
    rw [he]
    exact hfail
  have hsnd := av_strerror_snd_fail sr (-999999) buf 16 hreg hfail2
  have hw2 : snprintf_w (fallbackBytes (-999999)) 16 =
      strBytes ("Unknown error c") ++ [0] := by decide
  refine ⟨av_strerror_fst_fail sr (-999999) buf 16 hreg hfail2, ?_, ?_⟩
  · rw [hsnd, hw2]
    unfold writeBytes
    rw [List.append_assoc, List.singleton_append]
    exact cstring_append_nul _ _ (by decide)
  · have hlen : (strBytes ("Unknown error c") ++ [0]).length = 16 := by decide
    rw [hsnd, hw2, ← hlen]
    exact writeBytes_take _ _

/-- Claim C8 witness: the truncated-fallback theorem instantiated with the
concrete failing oracle and a 16-byte buffer of fives. -/
theorem av_strerror_truncated_fallback_example_witness :
    (sr_fail 999999 16).1 ≠ 0 ∧
    ((av_strerror sr_fail (-999999) (List.replicate 16 5) 16).1 = AVERROR_UNKNOWN ∧
      cstring (av_strerror sr_fail (-999999) (List.replicate 16 5) 16).2 =
        strBytes ("Unknown error c") ∧
      (av_strerror sr_fail (-999999) (List.replicate 16 5) 16).2.take 16 =
        strBytes ("Unknown error c") ++ [0]) :=
  ⟨by decide,
    av_strerror_truncated_fallback_example sr_fail (List.replicate 16 5) (by decide)⟩

/-- Claim C2 (code-bug evidence): `-22` (`AVERROR(EINVAL)`) is the `num` of
a registry entry, yet `av_strerror` neither returns success nor yields that
message text of that entry: the two-field initializer of the entry left `str` NULL, so
the lookup falls through to the platform facility, and with a failing
platform the call returns `AVERROR_UNKNOWN` with the synthesized fallback
in the buffer. -/
theorem av_strerror_registry_entry_null_str_bug :
    ((-22 : Int) ∈ error_entries.map error_entry.num) ∧
    registry_errstr (-22) = none ∧
    (av_strerror sr_fail (-22) (List.replicate 64 1) 64).1 = AVERROR_UNKNOWN ∧
    cstring (av_strerror sr_fail (-22) (List.replicate 64 1) 64).2 =
      strBytes ("Unknown error code: -22") := by
  decide

/-- Claim C3 (code-bug evidence): the "non-success only when the code is
absent from the registry" direction fails: `-5` (`AVERROR(EIO)`) is present
in the registry table, yet with a failing platform facility `av_strerror`
returns a non-success result for it. -/
theorem av_strerror_nonsuccess_despite_registry_member :
    ((-5 : Int) ∈ error_entries.map error_entry.num) ∧
    (av_strerror sr_fail (-5) (List.replicate 64 1) 64).1 ≠ 0 := by
  decide

/-- Claim C5: `av_err2str` never fails outwardly: run over its 64-byte
(`AV_ERROR_MAX_STRING_SIZE`) thread-local buffer it always leaves a
NUL-terminated, non-empty string there — a registry message, a platform
description, or the synthesized fallback — for every integer code, even
when the underlying `av_strerror` reported the unknown-code failure, given
the contract the spec states for the platform facility. -/
theorem av_err2str_always_usable (sr : Int → Nat → Int × List Nat)
    (hb : sr_bounded sr) (ht : sr_terminates sr) (hne : sr_nonempty sr)
    (errnum : Int) (buf : List Nat)
    (hlen : buf.length = AV_ERROR_MAX_STRING_SIZE) :
    (av_err2str sr errnum buf).length = AV_ERROR_MAX_STRING_SIZE ∧
    0 ∈ av_err2str sr errnum buf ∧
    cstring (av_err2str sr errnum buf) ≠ [] := by
  unfold av_err2str
  have hsz : 1 ≤ AV_ERROR_MAX_STRING_SIZE := by decide
  have hbuf : AV_ERROR_MAX_STRING_SIZE ≤ buf.length := le_of_eq hlen.symm
  have hcore := strerror_write_safe sr hb ht errnum buf AV_ERROR_MAX_STRING_SIZE hsz hbuf
  refine ⟨hcore.1.trans hlen, List.take_subset _ _ hcore.2.1, ?_⟩
  cases hreg : registry_errstr errnum with
  | some s =>
      obtain ⟨hs_ne, hs_nz⟩ := registry_msg_ok hreg
      obtain ⟨c, hc, hcne⟩ :=
        @head_av_strlcpy (strBytes s) AV_ERROR_MAX_STRING_SIZE (by decide) hs_ne hs_nz
      have hw1ne : av_strlcpy_w (strBytes s) AV_ERROR_MAX_STRING_SIZE ≠ [] := by
        intro hnil
        rw [hnil] at hc
        exact Option.noConfusion hc
      refine cstring_ne_nil_of_head ?_ hcne
      rw [av_strerror_snd_hit sr errnum buf AV_ERROR_MAX_STRING_SIZE s hreg,
        head_writeBytes hw1ne]
      exact hc
  | none =>
      by_cases hf : (sr (-errnum) AV_ERROR_MAX_STRING_SIZE).1 = 0
      · obtain ⟨c, hc, hcne⟩ := hne (-errnum) AV_ERROR_MAX_STRING_SIZE hf (by decide)
        have hwne : (sr (-errnum) AV_ERROR_MAX_STRING_SIZE).2 ≠ [] := by
          intro hnil
          rw [hnil] at hc
          exact Option.noConfusion hc
        refine cstring_ne_nil_of_head ?_ hcne
        rw [av_strerror_snd_ok sr errnum buf AV_ERROR_MAX_STRING_SIZE hreg hf,
          head_writeBytes hwne]
        exact hc
      · obtain ⟨c, hc, hcne⟩ :=
          head_snprintf_fallback errnum AV_ERROR_MAX_STRING_SIZE (by decide)
        have hwne : snprintf_w (fallbackBytes errnum) AV_ERROR_MAX_STRING_SIZE ≠ [] := by
          intro hnil
          rw [hnil] at hc
          exact Option.noConfusion hc
        refine cstring_ne_nil_of_head ?_ hcne
        rw [av_strerror_snd_fail sr errnum buf AV_ERROR_MAX_STRING_SIZE hreg hf,
          head_writeBytes hwne]
        exact hc

/-- Claim C5 witness: the accessor theorem instantiated at the nonsensical
code `-123456789` on a fresh 64-byte buffer with the failing oracle. -/
theorem av_err2str_always_usable_witness :
    sr_bounded sr_fail ∧ sr_terminates sr_fail ∧ sr_nonempty sr_fail ∧
    (List.replicate 64 1).length = AV_ERROR_MAX_STRING_SIZE ∧
    ((av_err2str sr_fail (-123456789) (List.replicate 64 1)).length =
        AV_ERROR_MAX_STRING_SIZE ∧
      0 ∈ av_err2str sr_fail (-123456789) (List.replicate 64 1) ∧
      cstring (av_err2str sr_fail (-123456789) (List.replicate 64 1)) ≠ []) :=
  ⟨sr_fail_bounded, sr_fail_terminates, sr_fail_nonempty, by decide,
    av_err2str_always_usable sr_fail sr_fail_bounded sr_fail_terminates
      sr_fail_nonempty (-123456789) (List.replicate 64 1) (by decide)⟩

/-- Claim C7 counterexample: `AVERROR_BUG` and `AVERROR_BUG2` are distinct
codes whose registry messages coincide, so two back-to-back `av_err2str`
calls on the same buffer with these two different codes yield the same
string — refuting "distinct codes always yield two different strings". -/
theorem av_err2str_distinct_codes_same_string :
    AVERROR_BUG ≠ AVERROR_BUG2 ∧
    cstring (av_err2str sr_fail AVERROR_BUG2
        (av_err2str sr_fail AVERROR_BUG (List.replicate 64 1))) =
      cstring (av_err2str sr_fail AVERROR_BUG (List.replicate 64 1)) := by
  decide

/-- Claim C7 (amended): back-to-back `av_err2str` calls fully overwrite the
thread-local buffer — after the second call its string is exactly what a
single call with the second code produces on any fresh buffer; the result
reflects the most recent call and nothing is accumulated. -/
theorem av_err2str_reflects_last_call (sr : Int → Nat → Int × List Nat)
    (ht : sr_terminates sr) (e1 e2 : Int) (buf buf2 : List Nat) :
    cstring (av_err2str sr e2 (av_err2str sr e1 buf)) =
      cstring (av_err2str sr e2 buf2) := by
  unfold av_err2str
  rw [cstring_av_strerror sr ht e2
      (av_strerror sr e1 buf AV_ERROR_MAX_STRING_SIZE).2 AV_ERROR_MAX_STRING_SIZE
      (by decide),
    cstring_av_strerror sr ht e2 buf2 AV_ERROR_MAX_STRING_SIZE (by decide)]

/-- Claim C7 amended witness: the overwrite theorem instantiated with codes
`AVERROR_EOF` then `AVERROR_BUG` on two unrelated 64-byte buffers. -/
theorem av_err2str_reflects_last_call_witness :
    sr_terminates sr_fail ∧
    cstring (av_err2str sr_fail AVERROR_BUG
        (av_err2str sr_fail AVERROR_EOF (List.replicate 64 1))) =
      cstring (av_err2str sr_fail AVERROR_BUG (List.replicate 64 9)) :=
  ⟨sr_fail_terminates,
    av_err2str_reflects_last_call sr_fail sr_fail_terminates AVERROR_EOF
      AVERROR_BUG (List.replicate 64 1) (List.replicate 64 9)⟩

/-- One `av_err2str` call by thread `c.1` with code `c.2`: thread-local
storage (`THREAD_LOCAL char av_error_buf[...]`) is modelled as a
thread-indexed family of buffers, and a call touches only the component of
its own thread. -/
def thread_step (sr : Int → Nat → Int × List Nat) (st : Nat → List Nat)
    (c : Nat × Int) : Nat → List Nat :=
  fun t => if t = c.1 then av_err2str sr c.2 (st c.1) else st t

/-- An arbitrary interleaving of per-thread `av_err2str` calls, one call per
list element, executed left to right. -/
def threads_run (sr : Int → Nat → Int × List Nat) (calls : List (Nat × Int))
    (st : Nat → List Nat) : Nat → List Nat :=
  calls.foldl (thread_step sr) st

lemma threads_run_untouched (sr : Int → Nat → Int × List Nat) :
    ∀ (calls : List (Nat × Int)) (st : Nat → List Nat) (tid : Nat),
    tid ∉ calls.map Prod.fst → threads_run sr calls st tid = st tid := by
  intro calls
  induction calls with
  | nil =>
      intro st tid _
      rfl
  | cons c cs ih =>
      intro st tid h
      have h1 : tid ∉ cs.map Prod.fst := by
        intro hm
        exact h (List.mem_cons_of_mem _ hm)
      have h2 : tid ≠ c.1 := by
        intro he
        apply h
        rw [List.map_cons, he]
        exact List.mem_cons_self _ _
      show threads_run sr cs (thread_step sr st c) tid = st tid
      rw [ih _ tid h1]
      unfold thread_step
      rw [if_neg h2]

lemma threads_run_own (sr : Int → Nat → Int × List Nat) :
    ∀ (calls : List (Nat × Int)) (st : Nat → List Nat) (tid : Nat) (code : Int),
    (calls.map Prod.fst).Nodup → (tid, code) ∈ calls →
    threads_run sr calls st tid = av_err2str sr code (st tid) := by
  intro calls
  induction calls with
  | nil =>
      intro st tid code _ hmem
      cases hmem
  | cons c cs ih =>
      intro st tid code hnodup hmem
      rw [List.map_cons, List.nodup_cons] at hnodup
      show threads_run sr cs (thread_step sr st c) tid = av_err2str sr code (st tid)
      rcases List.mem_cons.mp hmem with he | hm
      · have hc1 : c.1 = tid := by rw [← he]
        have hc2 : c.2 = code := by rw [← he]
        rw [threads_run_untouched sr cs _ tid (by rw [hc1] at hnodup; exact hnodup.1)]
        unfold thread_step
        rw [if_pos hc1.symm, hc1, hc2]
      · have htid : tid ≠ c.1 := by
          intro he
          apply hnodup.1
          rw [he] at hm
          have := List.mem_map_of_mem Prod.fst hm
          exact this
        rw [ih _ tid code hnodup.2 hm]
        unfold thread_step
        rw [if_neg htid]

/-- Claim C10: when any number of threads each call `av_err2str` once with
their own code — modelled as per-thread buffers updated in an arbitrary
interleaving order, with no locking — every thread ends up observing
exactly the string its own call produces on its own buffer: no cross-thread
interference is observable. -/
theorem av_err2str_thread_isolated (sr : Int → Nat → Int × List Nat)
    (calls : List (Nat × Int)) (st : Nat → List Nat)
    (hnodup : (calls.map Prod.fst).Nodup)
    (tid : Nat) (code : Int) (hmem : (tid, code) ∈ calls) :
    threads_run sr calls st tid = av_err2str sr code (st tid) :=
  threads_run_own sr calls st tid code hnodup hmem

/-- Claim C10 witness: two threads (0 with `AVERROR_BUG`, 1 with
`AVERROR_EOF`) calling concurrently; thread 1 observes its own result. -/
theorem av_err2str_thread_isolated_witness :
    (([(0, AVERROR_BUG), (1, AVERROR_EOF)] : List (Nat × Int)).map Prod.fst).Nodup ∧
    ((1, AVERROR_EOF) ∈ ([(0, AVERROR_BUG), (1, AVERROR_EOF)] : List (Nat × Int))) ∧
    threads_run sr_fail [(0, AVERROR_BUG), (1, AVERROR_EOF)]
        (fun _ => List.replicate 64 1) 1 =
      av_err2str sr_fail AVERROR_EOF ((fun _ => List.replicate 64 1) 1) :=
  ⟨by decide, by decide,
    av_err2str_thread_isolated sr_fail [(0, AVERROR_BUG), (1, AVERROR_EOF)]
      (fun _ => List.replicate 64 1) (by decide) 1 AVERROR_EOF (by decide)⟩

end FFmpegError
